import Mathlib

/-! The `App` view of todo-components.

A shallow embedding of `src/todo-components/src/App.jsx`:

```
function App() {
  const [count, setCount] = useState(0);
  return (
    <>
      <Input value={count} onChange={setCount} onSubmit={console.log} />
      <List items={["Learn React", "Learn Vite", "Make awesome app"]} />
    </>
  );
}
```

`App` itself is translated line by line.  The two library functions it hands
to `Input` unchanged, React's state setter and `console.log`, are embedded
with their documented behaviour: the setter stores the value it is called
with, unless that value is a function, which it runs on the current state,
storing what the function returns; `console.log` writes its whole argument
list.  A function run by the setter is caller code: it may write to the
console, and it may throw, in which case React, finding no error boundary in
`App`, unmounts it.
-/

namespace TodoComponents

/-! ## Values -/

/-- A JavaScript `number`: an IEEE-754 binary64 value, given by its 64 bits.
`0` is the number `0` (positive zero). -/
abbrev JSNumber := Fin (2 ^ 64)

/-- The number `5` (sign 0, exponent 1025, fraction 0.25). -/
def five : JSNumber := 0x4014000000000000

/-- The number `7` (sign 0, exponent 1025, fraction 0.75). -/
def seven : JSNumber := 0x401C000000000000

/-- A JavaScript value.  Objects and functions are references: two of them
are the same value exactly when they are the same reference. -/
inductive JSValue where
  | undefined
  | null
  | boolean (b : Bool)
  | number (n : JSNumber)
  | string (s : String)
  | object (ref : Nat)
  | function (ref : Nat)
  deriving DecidableEq, Repr

/-- The test `typeof v === "number"`. -/
def JSValue.isNumber : JSValue → Bool
  | .number _ => true
  | _ => false

/-- The test `typeof v === "function"`. -/
def JSValue.isFunction : JSValue → Bool
  | .function _ => true
  | _ => false

/-- How running a piece of JavaScript ends: it returns a value or it throws
one. -/
inductive Completion where
  | returns (v : JSValue)
  | throws (e : JSValue)
  deriving DecidableEq, Repr

/-- What running a piece of JavaScript does: the `console.log` calls it makes,
in order, each as its argument list, and how it ends. -/
structure Call where
  logs : List (List JSValue)
  completion : Completion
  deriving DecidableEq, Repr

/-- What the function objects do: `env f args` is what calling the function
with reference `f` on the argument list `args` does. -/
abbrev Env := Nat → List JSValue → Call

/-! ## The world: App's state cell and the console -/

/-- Everything the handlers of the mounted `App` can read or write: the state
cell of its `useState` hook, and the console, as the sequence of `console.log`
calls made so far, each call being its argument list. -/
structure World where
  count : JSValue
  sink : List (List JSValue)
  deriving DecidableEq, Repr

/-- The result of a handler that runs caller code: either `App` is still
mounted, in world `w`, or the code threw `error` and React unmounted `App`,
the console holding `sink`. -/
inductive Outcome where
  | ok (w : World)
  | crashed (error : JSValue) (sink : List (List JSValue))
  deriving DecidableEq, Repr

/-- Sequencing: go on with `f` if `App` is still mounted. -/
def Outcome.andThen (o : Outcome) (f : World → Outcome) : Outcome :=
  match o with
  | .ok w => f w
  | .crashed e s => .crashed e s

/-! ## React's `useState` and `console.log` -/

/-- The first-render branch of `useState(initialState)`.  `App` calls the hook
with the number literal `0`, so the initial state is a number and is the
state; the other form of the hook, with a function for argument, does not
occur. -/
def mountState (initialState : JSNumber) : JSValue :=
  .number initialState

/-- How a state setter computes the next state from the current one and the
value it was called with: `typeof action === "function" ? action(state) : action`.
A function is run, whatever it does; any other value is the next state. -/
def basicStateReducer (env : Env) (state action : JSValue) : Call :=
  match action with
  | .function f => env f [state]
  | v => { logs := [], completion := .returns v }

/-- The state setter `setState(action)` in world `w`: what the reducer wrote
is on the console; the value it returned is the new state, and if it threw
`App` is unmounted. -/
def dispatchSetState (env : Env) (action : JSValue) (w : World) : Outcome :=
  let c := basicStateReducer env w.count action
  match c.completion with
  | .returns v => .ok { count := v, sink := w.sink ++ c.logs }
  | .throws e => .crashed e (w.sink ++ c.logs)

/-- The hook `useState(initialState)`.  `hook` is the state cell React keeps
for the component: `none` on the first render after mounting, `some s` on a
later render.  The result is the pair `[state, setState]`. -/
def useState (env : Env) (initialState : JSNumber) (hook : Option JSValue) :
    JSValue × (JSValue → World → Outcome) :=
  let state := match hook with
    | none => mountState initialState
    | some s => s
  (state, dispatchSetState env)

/-- The function `console.log(...args)`: one call, with all of its arguments,
is appended to the console. -/
def console.log (args : List JSValue) (w : World) : World :=
  { w with sink := w.sink ++ [args] }

/-! ## The view -/

/-- The props `App` gives to `Input`. -/
structure InputProps where
  value : JSValue
  onChange : JSValue → World → Outcome
  onSubmit : List JSValue → World → World

/-- The props `App` gives to `List`. -/
structure ListProps where
  items : List String

/-- The fragment `App` returns: an `Input` followed by a `List`. -/
structure View where
  input : InputProps
  list : ListProps

/-- The component `App`, rendered with state cell `hook`. -/
def App (env : Env) (hook : Option JSValue) : View :=
  let (count, setCount) := useState env 0 hook
  { input := { value := count, onChange := setCount, onSubmit := console.log }
    list := { items := ["Learn React", "Learn Vite", "Make awesome app"] } }

/-! ## Lifecycle and events -/

/-- Mounting `App` next to a console holding `sink`: the first render, after
which the state cell holds the state that render used. -/
def mount (env : Env) (sink : List (List JSValue)) : World :=
  { count := (App env none).input.value, sink := sink }

/-- Unmounting `App`: its state cell is discarded; the console, which is not
the component's, is what remains. -/
def unmount (w : World) : List (List JSValue) :=
  w.sink

/-- A render of the mounted `App` in world `w`. -/
def render (env : Env) (w : World) : View :=
  App env (some w.count)

/-- The two events `Input` can raise: `onChange(newValue)` and
`onSubmit(value)`. -/
inductive Event where
  | change (newValue : JSValue)
  | submit (value : JSValue)
  deriving DecidableEq, Repr

/-- One event: `Input` calls the handler it was given at the last render. -/
def step (env : Env) (w : World) : Event → Outcome
  | .change v => (render env w).input.onChange v w
  | .submit v => .ok ((render env w).input.onSubmit [v] w)

/-- A sequence of events, in order.  Once `App` is unmounted there is no
`Input` left to raise the remaining ones. -/
def run (env : Env) : List Event → World → Outcome
  | [], w => .ok w
  | e :: es, w => (step env w e).andThen (run env es)

/-- The argument of a change event. -/
def changeArg : Event → Option JSValue
  | .change v => some v
  | .submit _ => none

/-- The argument of a submit event. -/
def submitArg : Event → Option JSValue
  | .change _ => none
  | .submit v => some v

/-- The sink entries a sequence of events is expected to leave: one entry per
submit event, holding its argument, in order. -/
def submitted (es : List Event) : List (List JSValue) :=
  (es.filterMap submitArg).map fun v => [v]

/-- The argument of the last change event of a sequence, if there is one. -/
def lastChange (es : List Event) : Option JSValue :=
  (es.filterMap changeArg).getLast?

/-- Three sample functions: function `0` is `x => x`; function `1` is
`x => (console.log("side effect"), x)`; every other one throws "boom". -/
def sampleEnv : Env := fun f args =>
  match f with
  | 0 => { logs := [], completion := .returns (args.headD .undefined) }
  | 1 => { logs := [[.string "side effect"]], completion := .returns (args.headD .undefined) }
  | _ => { logs := [], completion := .throws (.string "boom") }

/-! ## Basic facts about the handlers -/

@[simp] theorem render_value (env : Env) (w : World) :
    (render env w).input.value = w.count := rfl

@[simp] theorem render_onChange (env : Env) (w w1 : World) (v : JSValue) :
    (render env w).input.onChange v w1 = dispatchSetState env v w1 := rfl

@[simp] theorem render_onSubmit (env : Env) (w w1 : World) (args : List JSValue) :
    (render env w).input.onSubmit args w1 = { w1 with sink := w1.sink ++ [args] } := rfl

@[simp] theorem render_items (env : Env) (w : World) :
    (render env w).list.items = ["Learn React", "Learn Vite", "Make awesome app"] := rfl

/-- The setter called with a value that is not a function stores it, writes
nothing and does not fail. -/
theorem dispatchSetState_of_not_function (env : Env) (action : JSValue) (w : World)
    (h : action.isFunction = false) :
    dispatchSetState env action w = .ok { w with count := action } := by
  cases action <;> simp_all [dispatchSetState, basicStateReducer, JSValue.isFunction]

/-- The setter called with a function that returns: the state is what the
function returned, the sink has what it wrote. -/
theorem dispatchSetState_function_ok (env : Env) (f : Nat) (w w1 : World)
    (h : dispatchSetState env (.function f) w = .ok w1) :
    w1.sink = w.sink ++ (env f [w.count]).logs := by
  simp only [dispatchSetState, basicStateReducer] at h
  split at h
  · injection h with h; rw [← h]
  · exact Outcome.noConfusion h

@[simp] theorem step_change (env : Env) (w : World) (v : JSValue) :
    step env w (.change v) = dispatchSetState env v w := rfl

@[simp] theorem step_submit (env : Env) (w : World) (v : JSValue) :
    step env w (.submit v) = .ok { w with sink := w.sink ++ [[v]] } := rfl

@[simp] theorem run_nil (env : Env) (w : World) : run env [] w = .ok w := rfl

theorem run_cons (env : Env) (e : Event) (es : List Event) (w : World) :
    run env (e :: es) w = (step env w e).andThen (run env es) := rfl

/-- A run that ends with `App` mounted went through a first step that did. -/
theorem run_cons_ok (env : Env) (e : Event) (es : List Event) (w w2 : World)
    (h : run env (e :: es) w = .ok w2) :
    ∃ w1, step env w e = .ok w1 ∧ run env es w1 = .ok w2 := by
  rw [run_cons] at h
  cases hs : step env w e with
  | ok w1 => rw [hs] at h; exact ⟨w1, rfl, h⟩
  | crashed err s => rw [hs] at h; exact Outcome.noConfusion h

theorem lastChange_cons_change (v : JSValue) (es : List Event) :
    lastChange (.change v :: es) = some ((lastChange es).getD v) := by
  simp only [lastChange, List.filterMap_cons, changeArg]
  cases hl : (List.filterMap changeArg es).getLast? with
  | none =>
    have : List.filterMap changeArg es = [] := List.getLast?_eq_none_iff.mp hl
    simp [this]
  | some x =>
    obtain ⟨l, hl1⟩ := List.getLast?_eq_some_iff.mp hl
    rw [hl1, ← List.cons_append, List.getLast?_concat]
    rfl

theorem lastChange_cons_submit (v : JSValue) (es : List Event) :
    lastChange (.submit v :: es) = lastChange es := by
  simp [lastChange, changeArg]

/-- The count after a run that ends with `App` mounted and whose last change
event, if any, does not carry a function. -/
theorem run_count (env : Env) (es : List Event) (w w2 : World)
    (hrun : run env es w = .ok w2)
    (h : ∀ v, lastChange es = some v → v.isFunction = false) :
    w2.count = (lastChange es).getD w.count := by
  induction es generalizing w with
  | nil =>
    simp only [run_nil, Outcome.ok.injEq] at hrun
    simp [lastChange, hrun]
  | cons e es ih =>
    obtain ⟨w1, hs, hr⟩ := run_cons_ok env e es w w2 hrun
    cases e with
    | change v =>
      rw [lastChange_cons_change] at h ⊢
      cases hl : lastChange es with
      | none =>
        have hv : v.isFunction = false := h v (by simp [hl])
        rw [step_change, dispatchSetState_of_not_function env v w hv] at hs
        injection hs with hs
        have := ih w1 hr (by simp [hl])
        simp [this, hl, ← hs]
      | some x =>
        have := ih w1 hr (by intro y hy; exact h y (by simp [hy]))
        simp [this, hl]
    | submit v =>
      rw [lastChange_cons_submit] at h ⊢
      rw [step_submit] at hs
      injection hs with hs
      have := ih w1 hr h
      simp [this, ← hs]

/-- The sink after a run that ends with `App` mounted and in which no function
run by the setter wrote to the console. -/
theorem run_sink (env : Env) (es : List Event) (w w2 : World)
    (hrun : run env es w = .ok w2)
    (h : ∀ es1 es2 f w1, es = es1 ++ Event.change (.function f) :: es2 →
      run env es1 w = .ok w1 → (env f [w1.count]).logs = []) :
    w2.sink = w.sink ++ submitted es := by
  induction es generalizing w with
  | nil =>
    simp only [run_nil, Outcome.ok.injEq] at hrun
    simp [submitted, hrun]
  | cons e es ih =>
    obtain ⟨w1, hs, hr⟩ := run_cons_ok env e es w w2 hrun
    have h1 : ∀ es1 es2 f w3, es = es1 ++ Event.change (.function f) :: es2 →
        run env es1 w1 = .ok w3 → (env f [w3.count]).logs = [] := by
      intro es1 es2 f w3 heq hr3
      apply h (e :: es1) es2 f w3 (by rw [heq]; rfl)
      rw [run_cons, hs]
      exact hr3
    have hsink := ih w1 hr h1
    cases e with
    | change v =>
      have hw1 : w1.sink = w.sink := by
        by_cases hv : v.isFunction = false
        · rw [step_change, dispatchSetState_of_not_function env v w hv] at hs
          injection hs with hs
          rw [← hs]
        · cases v <;> simp [JSValue.isFunction] at hv
          rename_i f
          have hlogs := h [] es f w rfl rfl
          have := dispatchSetState_function_ok env f w w1 hs
          rw [this, hlogs, List.append_nil]
      rw [hsink, hw1]
      simp [submitted, submitArg]
    | submit v =>
      rw [step_submit] at hs
      injection hs with hs
      rw [hsink, ← hs]
      simp [submitted, submitArg]

/-- A run all of whose change events carry numbers ends with `App` mounted and
count a number, if it was one before. -/
theorem run_isNumber (env : Env) (es : List Event) (w : World)
    (hw : w.count.isNumber = true)
    (h : ∀ v, Event.change v ∈ es → v.isNumber = true) :
    ∃ w2, run env es w = .ok w2 ∧ w2.count.isNumber = true := by
  induction es generalizing w with
  | nil => exact ⟨w, rfl, hw⟩
  | cons e es ih =>
    have h1 : ∀ v, Event.change v ∈ es → v.isNumber = true :=
      fun v hv => h v (List.mem_cons_of_mem _ hv)
    cases e with
    | change v =>
      have hv : v.isNumber = true := h v (List.mem_cons_self _ _)
      have hf : v.isFunction = false := by cases v <;> simp_all [JSValue.isNumber, JSValue.isFunction]
      rw [run_cons, step_change, dispatchSetState_of_not_function env v w hf]
      exact ih _ hv h1
    | submit v =>
      rw [run_cons, step_submit]
      exact ih _ hw h1

/-! ## The claims -/

/-- C1: for every state of App and every number `n`, calling the change
handler App passes to Input with `n` does not fail and gives the state with
count exactly `n` and nothing else changed, so the value prop of the next
render is `n`; this is so from any previous state. -/
theorem C1_change_sets_count (env : Env) (w : World) (n : JSNumber) :
    (render env w).input.onChange (.number n) w = .ok { w with count := .number n } ∧
    (render env { w with count := .number n }).input.value = .number n ∧
    ∀ w1 : World,
      (render env w1).input.onChange (.number n) w1 = .ok { w1 with count := .number n } :=
  ⟨dispatchSetState_of_not_function env (.number n) w rfl, rfl,
   fun w1 => dispatchSetState_of_not_function env (.number n) w1 rfl⟩

/-- C2: in the initial state of App, on mount and before any event, count is
`0` and the value prop rendered into Input is `0`, on the first render and on
a render of the mounted state alike. -/
theorem C2_initial_count_zero (env : Env) (sink : List (List JSValue)) :
    (mount env sink).count = .number 0 ∧
    (App env none).input.value = .number 0 ∧
    (render env (mount env sink)).input.value = .number 0 :=
  ⟨rfl, rfl, rfl⟩

/-- C3: for every value `v`, calling the submit handler App passes to Input
with `v` appends one entry, holding exactly `v`, to the diagnostic sink and
nothing else; submitting the current count logs exactly that count. -/
theorem C3_submit_logs_value (env : Env) (w : World) (v : JSValue) :
    ((render env w).input.onSubmit [v] w).sink = w.sink ++ [[v]] ∧
    ((render env w).input.onSubmit [w.count] w).sink = w.sink ++ [[w.count]] :=
  ⟨rfl, rfl⟩

/-- C4: in every state of App the items prop rendered into List is the
3-element sequence "Learn React", "Learn Vite", "Make awesome app", in that
order, so the items rendered before and after any change event are equal. -/
theorem C4_items_fixed (env : Env) (hook : Option JSValue) (w : World) (v : JSValue) :
    (App env hook).list.items = ["Learn React", "Learn Vite", "Make awesome app"] ∧
    (App env hook).list.items.length = 3 ∧
    (render env w).list.items = ["Learn React", "Learn Vite", "Make awesome app"] ∧
    ∀ w1, step env w (.change v) = .ok w1 →
      (render env w1).list.items = (render env w).list.items :=
  ⟨rfl, rfl, rfl, fun _ _ => rfl⟩

/-- C4 at a concrete change event: from the initial state, change to `5`. -/
theorem C4_items_fixed_witness :
    step sampleEnv (mount sampleEnv []) (.change (.number five)) = .ok ⟨.number five, []⟩ ∧
    (render sampleEnv ⟨.number five, []⟩).list.items =
      (render sampleEnv (mount sampleEnv [])).list.items :=
  ⟨by decide,
   (C4_items_fixed sampleEnv none (mount sampleEnv []) (.number five)).2.2.2 _ (by decide)⟩

/-- C5: the change handler is idempotent on numbers: applying it with `n`
twice gives the same state as applying it once, and applying it with `n` to a
state whose count is already `n` leaves the state unchanged. -/
theorem C5_change_idempotent (env : Env) (w : World) (n : JSNumber) :
    ((render env w).input.onChange (.number n) w).andThen
        ((render env w).input.onChange (.number n)) =
      (render env w).input.onChange (.number n) w ∧
    (∃ w1, (render env w).input.onChange (.number n) w = .ok w1 ∧
      (render env w1).input.onChange (.number n) w1 = .ok w1) ∧
    (w.count = .number n → (render env w).input.onChange (.number n) w = .ok w) := by
  have h : ∀ w1 : World, (render env w).input.onChange (.number n) w1 =
      .ok { w1 with count := .number n } :=
    fun w1 => dispatchSetState_of_not_function env (.number n) w1 rfl
  refine ⟨?_, ⟨_, h w, h _⟩, fun hc => ?_⟩
  · rw [h w, Outcome.andThen, h]
  · rw [h w, ← hc]

/-- C5 at a concrete state: count `5`, one entry in the sink, change to `5`. -/
theorem C5_change_idempotent_witness :
    (⟨.number five, [[.null]]⟩ : World).count = .number five ∧
    (render sampleEnv ⟨.number five, [[.null]]⟩).input.onChange (.number five)
      ⟨.number five, [[.null]]⟩ = .ok ⟨.number five, [[.null]]⟩ :=
  ⟨rfl, (C5_change_idempotent sampleEnv ⟨.number five, [[.null]]⟩ five).2.2 rfl⟩

/-- C6: unmounting and then remounting App resets count to `0`: from every
state reached by a sequence of change and submit events, and indeed from
every state at all, the state after unmount followed by mount has count `0`. -/
theorem C6_remount_resets_count (env : Env) (sink : List (List JSValue)) (es : List Event)
    (w : World) :
    (∀ w1, run env es (mount env sink) = .ok w1 →
      (mount env (unmount w1)).count = .number 0) ∧
    (mount env (unmount w)).count = .number 0 :=
  ⟨fun _ _ => rfl, rfl⟩

/-- C6 at a concrete run: change `5`, submit `5`, then unmount and mount. -/
theorem C6_remount_resets_count_witness :
    run sampleEnv [.change (.number five), .submit (.number five)] (mount sampleEnv []) =
      .ok ⟨.number five, [[.number five]]⟩ ∧
    (mount sampleEnv (unmount ⟨.number five, [[.number five]]⟩)).count = .number 0 :=
  ⟨by decide,
   (C6_remount_resets_count sampleEnv [] [.change (.number five), .submit (.number five)]
      ⟨.null, []⟩).1 _ (by decide)⟩

/-- C7 fails as stated: after the single change event `onChange("5")` from the
initial state, count is the string "5", which is not a number. -/
theorem C7_counterexample :
    run sampleEnv [.change (.string "5")] (mount sampleEnv []) = .ok ⟨.string "5", []⟩ ∧
    (⟨.string "5", []⟩ : World).count.isNumber = false := by
  decide

/-- C7 as amended: every sequence of submit events and of change events whose
arguments are numbers, applied from the initial state, leaves App in a state
whose count is a number; the change handler checks and converts nothing, it
stores any value that is not a function exactly as it is given. -/
theorem C7_count_number_of_numeric_changes (env : Env) (sink : List (List JSValue))
    (es : List Event) (h : ∀ v, Event.change v ∈ es → v.isNumber = true) :
    (∃ w, run env es (mount env sink) = .ok w ∧ w.count.isNumber = true) ∧
    ∀ (w : World) (v : JSValue), v.isFunction = false →
      (render env w).input.onChange v w = .ok { w with count := v } :=
  ⟨run_isNumber env es (mount env sink) rfl h,
   fun w v hv => dispatchSetState_of_not_function env v w hv⟩

/-- C7 as amended, at the trace change `5`, submit "a", change `7`. -/
theorem C7_count_number_of_numeric_changes_witness :
    (∀ v, Event.change v ∈
        [Event.change (.number five), .submit (.string "a"), .change (.number seven)] →
        v.isNumber = true) ∧
    ∃ w, run sampleEnv [.change (.number five), .submit (.string "a"), .change (.number seven)]
      (mount sampleEnv []) = .ok w ∧ w.count.isNumber = true :=
  ⟨by intro v hv; simp at hv; rcases hv with rfl | rfl <;> rfl,
   (C7_count_number_of_numeric_changes sampleEnv [] _
    (by intro v hv; simp at hv; rcases hv with rfl | rfl <;> rfl)).1⟩

/-- C8 fails as stated: called from the initial state with the function
`x => (console.log("side effect"), x)` the change handler leaves an entry in
the diagnostic sink, which was empty; called with a function that throws it
ends in an error, with App unmounted, and returns no successor state. -/
theorem C8_counterexample :
    (mount sampleEnv []).sink = [] ∧
    (render sampleEnv (mount sampleEnv [])).input.onChange (.function 1) (mount sampleEnv []) =
      .ok ⟨.number 0, [[.string "side effect"]]⟩ ∧
    (render sampleEnv (mount sampleEnv [])).input.onChange (.function 2) (mount sampleEnv []) =
      .crashed (.string "boom") [] := by
  decide

/-- C8 as amended: for every state and every new value that is not a
function, the change handler returns a successor state, not an error, and the
diagnostic sink after the change event holds what it held before. -/
theorem C8_change_total_no_output (env : Env) (w : World) (v : JSValue)
    (h : v.isFunction = false) :
    ∃ w1 : World, (render env w).input.onChange v w = .ok w1 ∧
      step env w (.change v) = .ok w1 ∧ w1.sink = w.sink :=
  ⟨_, dispatchSetState_of_not_function env v w h,
    dispatchSetState_of_not_function env v w h, rfl⟩

/-- C8 as amended, at the state with count `5` and one sink entry, and the new
value "a". -/
theorem C8_change_total_no_output_witness :
    (JSValue.string "a").isFunction = false ∧
    ∃ w1 : World,
      (render sampleEnv ⟨.number five, [[.null]]⟩).input.onChange (.string "a")
        ⟨.number five, [[.null]]⟩ = .ok w1 ∧
      step sampleEnv ⟨.number five, [[.null]]⟩ (.change (.string "a")) = .ok w1 ∧
      w1.sink = [[.null]] :=
  ⟨rfl, C8_change_total_no_output sampleEnv ⟨.number five, [[.null]]⟩ (.string "a") rfl⟩

/-- C9: the submit handler leaves App's state unchanged: for every state and
every submitted value, the submit event does not fail, count after it equals
count before it, and so do the value rendered into Input and the items
rendered into List. -/
theorem C9_submit_keeps_count (env : Env) (w : World) (v : JSValue) :
    ((render env w).input.onSubmit [v] w).count = w.count ∧
    step env w (.submit v) = .ok ((render env w).input.onSubmit [v] w) ∧
    (render env ((render env w).input.onSubmit [v] w)).input.value =
      (render env w).input.value ∧
    (render env ((render env w).input.onSubmit [v] w)).list.items =
      (render env w).list.items :=
  ⟨rfl, rfl, rfl, rfl⟩

/-- C10 fails as stated, in three ways.  After change `5` and then a change
event whose argument is the function `x => x`, count is `5`, not that
function.  After a change event whose argument is a function that writes to
the console, the sink holds an entry though there was no submit event.  After
a change event whose argument is a function that throws, App is unmounted and
has no count, whatever change events were to follow. -/
theorem C10_counterexample :
    (run sampleEnv [.change (.number five), .change (.function 0)] (mount sampleEnv []) =
        .ok ⟨.number five, []⟩ ∧
      lastChange [.change (.number five), .change (.function 0)] = some (.function 0)) ∧
    (run sampleEnv [.change (.function 1)] (mount sampleEnv []) =
        .ok ⟨.number 0, [[.string "side effect"]]⟩ ∧
      submitted [.change (.function 1)] = []) ∧
    run sampleEnv [.change (.function 2), .change (.number five)] (mount sampleEnv []) =
      .crashed (.string "boom") [] := by
  decide

/-- C10 as amended: for every finite sequence of change and submit events
applied from the initial state that leaves App mounted (no function given to
the change handler threw): count is the argument of the last change event
when that argument is not a function, and `0` when there is no change event;
and the diagnostic sink holds exactly the arguments of the submit events, in
order, when no function the change handler ran wrote to the console. -/
theorem C10_last_write_wins (env : Env) (es : List Event) (w : World)
    (hrun : run env es (mount env []) = .ok w) :
    ((∀ v, lastChange es = some v → v.isFunction = false) →
      w.count = (lastChange es).getD (.number 0)) ∧
    ((∀ es1 es2 f w1, es = es1 ++ Event.change (.function f) :: es2 →
        run env es1 (mount env []) = .ok w1 → (env f [w1.count]).logs = []) →
      w.sink = submitted es) := by
  refine ⟨fun h => ?_, fun h => ?_⟩
  · rw [run_count env es _ w hrun h]; rfl
  · rw [run_sink env es _ w hrun h]; rfl

/-- C10 as amended, at the trace submit `0`, change `x => x`, change "a",
submit "a", change `7`, submit `7`. -/
theorem C10_last_write_wins_witness :
    run sampleEnv [.submit (.number 0), .change (.function 0), .change (.string "a"),
        .submit (.string "a"), .change (.number seven), .submit (.number seven)]
      (mount sampleEnv []) =
      .ok ⟨.number seven, [[.number 0], [.string "a"], [.number seven]]⟩ ∧
    (⟨.number seven, [[.number 0], [.string "a"], [.number seven]]⟩ : World).count =
      (lastChange [.submit (.number 0), .change (.function 0), .change (.string "a"),
        .submit (.string "a"), .change (.number seven), .submit (.number seven)]).getD
        (.number 0) ∧
    (⟨.number seven, [[.number 0], [.string "a"], [.number seven]]⟩ : World).sink =
      submitted [.submit (.number 0), .change (.function 0), .change (.string "a"),
        .submit (.string "a"), .change (.number seven), .submit (.number seven)] :=
  have h := C10_last_write_wins sampleEnv
    [.submit (.number 0), .change (.function 0), .change (.string "a"),
      .submit (.string "a"), .change (.number seven), .submit (.number seven)]
    ⟨.number seven, [[.number 0], [.string "a"], [.number seven]]⟩ (by decide)
  ⟨by decide,
   h.1 (by intro v hv; have hv1 : some (JSValue.number seven) = some v := hv; cases hv1; rfl),
   h.2 (by
    intro es1 es2 f w1 heq _
    have hmem : Event.change (.function f) ∈
        [Event.submit (.number 0), .change (.function 0), .change (.string "a"),
          .submit (.string "a"), .change (.number seven), .submit (.number seven)] := by
      rw [heq]; simp
    simp at hmem
    subst hmem
    rfl)⟩

end TodoComponents
